import Mathlib

/-!
Verification of `scripts/export_to_csv.py`: a batch converter from JSON
measurement-run records to two CSV tables (per-run summary and
per-deployment detail).  The Python data model (parsed JSON documents,
`dict.get` with defaults, Python truthiness, `or`-fallbacks) is embedded
shallowly below; the two export functions and the CSV writer are
translated definition-by-definition from the source.
-/

/-- JSON values as produced by `json.load`.  Numbers are modelled as
integers (all numeric fields in the claims are integral). -/
inductive Json where
  | null : Json
  | bool : Bool → Json
  | num : Int → Json
  | str : String → Json
  | arr : List Json → Json
  | obj : List (String × Json) → Json

/-- Python truthiness (`if x:`): `None`, `False`, `0`, `""`, `[]`, `{}`
are falsy, everything else truthy. -/
def Json.truthy : Json → Bool
  | .null => false
  | .bool b => b
  | .num n => n != 0
  | .str s => s != ""
  | .arr xs => !xs.isEmpty
  | .obj kvs => !kvs.isEmpty

/-- `d.get(k)` on a dict: `some` value when the key is present, else `none`.
On non-dicts the Python code would never reach the lookup. -/
def Json.lookup (j : Json) (k : String) : Option Json :=
  match j with
  | .obj kvs => kvs.lookup k
  | _ => none

/-- `d.get(k, default)`: presence-based lookup with a default. -/
def Json.getD (j : Json) (k : String) (d : Json) : Json :=
  (j.lookup k).getD d

/-- Python `a or b`: `a` when truthy, else `b`. -/
def pyOr (a b : Json) : Json :=
  if a.truthy then a else b

/-- Iteration over a JSON list (`for x in xs`); non-lists yield nothing. -/
def Json.elems : Json → List Json
  | .arr xs => xs
  | _ => []

/-- Iteration over a JSON object's items (`for k, v in d.items()`),
in insertion order; non-dicts yield nothing. -/
def Json.items : Json → List (String × Json)
  | .obj kvs => kvs
  | _ => []

/-- Python `len` on the container shapes the exporter measures. -/
def Json.pyLen : Json → Nat
  | .arr xs => xs.length
  | .obj kvs => kvs.length
  | .str s => s.length
  | _ => 0

/-- The underlying string of a JSON string value (the exporter only applies
string operations to string-valued fields). -/
def Json.asStr : Json → String
  | .str s => s
  | _ => ""

/-- Python `str.split(sep)` on a single-character separator, over the
character list of the string: no merging of adjacent separators, and the
result is always non-empty (`"".split(c) == [""]`). -/
def pySplit (sep : Char) : List Char → List (List Char)
  | [] => [[]]
  | c :: rest =>
    let r := pySplit sep rest
    if c = sep then [] :: r else (c :: r.headD []) :: r.tail

/-- `parse_cluster_info` (export_to_csv.py lines 20-33): split an
EKS cluster ARN into region (4th colon segment) and cluster name (last
slash segment of the 6th colon segment); non-ARN strings are returned
whole as the cluster name with an empty region. -/
def parse_cluster_info (cluster_context : String) : String × String :=
  if "arn:aws:eks:".data.isPrefixOf cluster_context.data then
    let parts := pySplit ':' cluster_context.data
    let region := if parts.length > 3 then parts.getD 3 [] else []
    let cluster_name :=
      if parts.length > 5 then (pySplit '/' (parts.getD 5 [])).getLastD [] else []
    (⟨region⟩, ⟨cluster_name⟩)
  else
    ("", cluster_context)

/-- Cluster identity resolution shared by both exports (lines 44-51 and
151-157): an ARN-shaped or plain `args.cluster_context` wins; otherwise the
top-level `cluster` field is the cluster name and the region is empty. -/
def cluster_identity (data : Json) : String × Json :=
  let cluster_context := (data.getD "args" (Json.obj [])).getD "cluster_context" (Json.str "")
  if cluster_context.truthy then
    let p := parse_cluster_info cluster_context.asStr
    (p.1, Json.str p.2)
  else
    ("", data.getD "cluster" (Json.str ""))

/-- Run-level timestamp (lines 54 and 149): `timestamp` field, else
`start_time` field, else empty. -/
def run_timestamp (data : Json) : Json :=
  pyOr (data.getD "timestamp" (Json.str "")) (data.getD "start_time" (Json.str ""))

/-- Namespace list (lines 64-67 and 164-167): `args.namespaces` if
non-empty, else a one-element list from `args.namespace` when present. -/
def namespaces_of (data : Json) : Json :=
  let args := data.getD "args" (Json.obj [])
  let ns0 := args.getD "namespaces" (Json.arr [])
  if !ns0.truthy && (args.getD "namespace" Json.null).truthy then
    Json.arr [args.getD "namespace" Json.null]
  else ns0

/-- `','.join(namespaces)` over a JSON list of strings. -/
def joinComma (j : Json) : String :=
  String.intercalate "," (j.elems.map Json.asStr)

/-- The single namespaces column value (lines 75 and 168). -/
def namespace_str (data : Json) : String :=
  let ns := namespaces_of data
  if ns.truthy then joinComma ns else ""

/-- Postprocessed-statistics block (line 80): `postprocessed` object, else
`postprocessed_data` object, else empty object. -/
def postprocessed_of (data : Json) : Json :=
  pyOr (data.getD "postprocessed" (Json.obj [])) (data.getD "postprocessed_data" (Json.obj []))

/-- Identity part of a summary row (lines 69-77). -/
def summary_base_row (data : Json) : List (String × Json) :=
  let rc := cluster_identity data
  let args := data.getD "args" (Json.obj [])
  [("region", Json.str rc.1),
   ("cluster", rc.2),
   ("timestamp", run_timestamp data),
   ("scenario", args.getD "scenario" (Json.str "")),
   ("action", args.getD "action" (Json.str "")),
   ("namespaces", Json.str (namespace_str data)),
   ("elapsed_time", pyOr (data.getD "install_time" (Json.str "")) (data.getD "elapsed_time" (Json.str "")))]

/-- Postprocessed-statistics part of a summary row (lines 81-102).  The
source data misspells `nodes_used` as `nosed_used` for the four aggregate
keys; the exporter reads the misspelled key and emits the corrected
column name. -/
def summary_stats_row (data : Json) : List (String × Json) :=
  let postprocessed := postprocessed_of data
  [("scale_direction", postprocessed.getD "scale_direction" (Json.str "")),
   ("scale_amount", postprocessed.getD "scale_amount" (Json.str "")),
   ("scale_percentage", postprocessed.getD "scale_percentage" (Json.str "")),
   ("jain_fairness_index_mean", postprocessed.getD "jain_fairness_index_mean" (Json.str "")),
   ("jain_fairness_index_median", postprocessed.getD "jain_fairness_index_median" (Json.str "")),
   ("coefficient_of_variation_mean", postprocessed.getD "coefficient_of_variation_mean" (Json.str "")),
   ("coefficient_of_variation_median", postprocessed.getD "coefficient_of_variation_median" (Json.str "")),
   ("gini_coefficient_mean", postprocessed.getD "gini_coefficient_mean" (Json.str "")),
   ("gini_coefficient_median", postprocessed.getD "gini_coefficient_median" (Json.str "")),
   ("node_skew_mean", postprocessed.getD "node_skew_mean" (Json.str "")),
   ("node_skew_median", postprocessed.getD "node_skew_median" (Json.str "")),
   ("node_skew_max", postprocessed.getD "node_skew_max" (Json.str "")),
   ("node_skew_percentage_mean", postprocessed.getD "node_skew_percentage_mean" (Json.str "")),
   ("node_skew_percentage_median", postprocessed.getD "node_skew_percentage_median" (Json.str "")),
   ("node_skew_percentage_max", postprocessed.getD "node_skew_percentage_max" (Json.str "")),
   ("nodes_used_avg", postprocessed.getD "nosed_used_avg" (Json.str "")),
   ("nodes_used_median", postprocessed.getD "nosed_used_median" (Json.str "")),
   ("nodes_used_max", postprocessed.getD "nosed_used_max" (Json.str "")),
   ("nodes_used_min", postprocessed.getD "nosed_used_min" (Json.str ""))]

/-- Cluster-data / deployment-count resolution for the summary row
(lines 104-118): first element of the measurements collection when one is
non-empty, else the legacy `measurements_pre`/`measurements_post`
top-level objects, preferring post. -/
def summary_cluster_data (data : Json) : Json × Nat :=
  let measurements := pyOr (data.getD "measurements" (Json.arr [])) (data.getD "measurements_taken" (Json.arr []))
  if measurements.truthy then
    let m0 := measurements.elems.headD Json.null
    (m0.getD "cluster" (Json.obj []), (m0.getD "deployments" (Json.obj [])).pyLen)
  else
    let measurements_pre := data.getD "measurements_pre" (Json.obj [])
    let measurements_post := data.getD "measurements_post" (Json.obj [])
    (pyOr (measurements_post.getD "cluster" (Json.obj [])) (measurements_pre.getD "cluster" (Json.obj [])),
     (measurements_post.getD "deployments" (Json.obj [])).pyLen)

/-- Cluster part of a summary row (lines 120-124).  A deployment count of
zero is serialized as the empty string, not `0`. -/
def summary_cluster_row (data : Json) : List (String × Json) :=
  let cd := summary_cluster_data data
  [("node_count", cd.1.getD "node_count" (Json.str "")),
   ("eligible_node_count", cd.1.getD "eligible_node_count" (Json.str "")),
   ("deployment_count", if cd.2 != 0 then Json.num cd.2 else Json.str "")]

/-- One summary row per document (lines 69-126): the base dict followed by
the two `row.update` calls, whose keys are disjoint from earlier ones, so
dict update is list append. -/
def summary_row (data : Json) : List (String × Json) :=
  summary_base_row data ++ summary_stats_row data ++ summary_cluster_row data

/-- The rows accumulated by `export_summary_csv` over the parsed input
documents (lines 39-126). -/
def summary_rows (docs : List Json) : List (List (String × Json)) :=
  docs.map summary_row

/-- Measurements collection used by `export_deployments_csv`
(lines 171-176): `measurements` list if non-empty, else
`measurements_taken` list if non-empty, else a synthetic one-element list
from `measurements_post` when that is present and truthy. -/
def measurements_source (data : Json) : Json :=
  let m0 := pyOr (data.getD "measurements" (Json.arr [])) (data.getD "measurements_taken" (Json.arr []))
  if !m0.truthy then
    let mp := data.getD "measurements_post" Json.null
    if mp.truthy then Json.arr [mp] else m0
  else m0

/-- The measurements iterated by the deployments export. -/
def measurements_of (data : Json) : List Json :=
  (measurements_source data).elems

/-- One deployment row (lines 180-205), for a document, a measurement and
one `deployments` entry (key and value).  The deployment name is the
observation's `name` field when present, else its key. -/
def deployment_row (data : Json) (measurement : Json) (dkey : String) (ddata : Json) :
    List (String × Json) :=
  let rc := cluster_identity data
  let args := data.getD "args" (Json.obj [])
  [("region", Json.str rc.1),
   ("cluster", rc.2),
   ("namespace", Json.str (namespace_str data)),
   ("timestamp", run_timestamp data),
   ("measurement_timestamp", measurement.getD "timestamp" (run_timestamp data)),
   ("scenario", args.getD "scenario" (Json.str "")),
   ("action", args.getD "action" (Json.str "")),
   ("deployment_name", ddata.getD "name" (Json.str dkey)),
   ("total_pods", ddata.getD "total_pods" (Json.str "")),
   ("nodes_used", ddata.getD "nodes_used" (Json.str "")),
   ("max_pods", ddata.getD "max_pods" (Json.str "")),
   ("min_pods", ddata.getD "min_pods" (Json.str "")),
   ("node_skew", ddata.getD "node_skew" (Json.str "")),
   ("node_skew_percentage", ddata.getD "node_skew_percentage" (Json.str "")),
   ("mean_pods", ddata.getD "mean_pods" (Json.str "")),
   ("median_pods", ddata.getD "median_pods" (Json.str "")),
   ("coefficient_of_variation", ddata.getD "coefficient_of_variation" (Json.str "")),
   ("gini_coefficient", ddata.getD "gini_coefficient" (Json.str "")),
   ("jain_fairness_index", ddata.getD "jain_fairness_index" (Json.str ""))]

/-- All deployment rows for one document (lines 178-206): every
measurement in the collection, and within it every `deployments` entry. -/
def deployment_rows_for (data : Json) : List (List (String × Json)) :=
  (measurements_of data).flatMap (fun measurement =>
    (measurement.getD "deployments" (Json.obj [])).items.map (fun kv =>
      deployment_row data measurement kv.1 kv.2))

/-- The rows accumulated by `export_deployments_csv` (lines 143-206). -/
def deployment_rows (docs : List Json) : List (List (String × Json)) :=
  docs.flatMap deployment_rows_for

mutual

/-- Python `repr`, to the extent the csv writer can meet it (strings
render between single quotes; escaping inside them is not modelled, as no
exporter cell is a container of quote-bearing strings). -/
def pyRepr : Json → String
  | .null => "None"
  | .bool true => "True"
  | .bool false => "False"
  | .num n => toString n
  | .str s => "\x27" ++ s ++ "\x27"
  | .arr xs => "[" ++ String.intercalate ", " (pyReprList xs) ++ "]"
  | .obj kvs => "\x7b" ++ String.intercalate ", " (pyReprItems kvs) ++ "\x7d"

/-- `repr` of each element of a list. -/
def pyReprList : List Json → List String
  | [] => []
  | j :: rest => pyRepr j :: pyReprList rest

/-- `repr` of each `key: value` item of a dict. -/
def pyReprItems : List (String × Json) → List String
  | [] => []
  | (k, v) :: rest => ("\x27" ++ k ++ "\x27: " ++ pyRepr v) :: pyReprItems rest

end

/-- `str(value)` as applied by the csv module to a cell value.  Strings
pass through unchanged; integers print in decimal. -/
def pyStr : Json → String
  | .str s => s
  | .num n => toString n
  | .bool true => "True"
  | .bool false => "False"
  | .null => "None"
  | .arr xs => pyRepr (Json.arr xs)
  | .obj kvs => pyRepr (Json.obj kvs)

/-- A CSV field must be quoted (csv.QUOTE_MINIMAL) when it contains the
delimiter, the quote character, or a line-terminator character. -/
def needsQuote (s : List Char) : Bool :=
  s.any (fun c => c = ',' || c = '"' || c = '\r' || c = '\n')

/-- Double every quote character (the csv escaping rule inside a quoted
field). -/
def escapeQuotes : List Char → List Char
  | [] => []
  | c :: rest => if c = '"' then '"' :: '"' :: escapeQuotes rest else c :: escapeQuotes rest

/-- Serialize one CSV field with minimal quoting. -/
def renderField (s : List Char) : List Char :=
  if needsQuote s then '"' :: (escapeQuotes s ++ ['"']) else s

/-- Serialize one CSV record: fields joined by commas. -/
def renderRecord (fields : List (List Char)) : List Char :=
  match fields with
  | [] => []
  | [f] => renderField f
  | f :: rest => renderField f ++ ',' :: renderRecord rest

/-- The csv module's default line terminator. -/
def crlf : List Char := ['\r', '\n']

/-- Serialize a whole CSV table: each record followed by CRLF. -/
def renderTable (records : List (List (List Char))) : List Char :=
  (records.map (fun r => renderRecord r ++ crlf)).flatten

/-- The fixed deployment-table column order (lines 185-205). -/
def deployment_fieldnames : List String :=
  ["region", "cluster", "namespace", "timestamp", "measurement_timestamp",
   "scenario", "action", "deployment_name", "total_pods", "nodes_used",
   "max_pods", "min_pods", "node_skew", "node_skew_percentage", "mean_pods",
   "median_pods", "coefficient_of_variation", "gini_coefficient",
   "jain_fairness_index"]

/-- `csv.DictWriter` applied to a row list (lines 129-134 and 209-214):
nothing is written when there are no rows; otherwise the header comes from
the first row's keys, and each row contributes the `str()` of its value
under each field name (`restval` empty for a missing key). -/
def write_csv (rows : List (List (String × Json))) : Option (List Char) :=
  match rows with
  | [] => none
  | r0 :: _ =>
    let fieldnames := r0.map Prod.fst
    let header := fieldnames.map String.data
    let body := rows.map (fun r =>
      fieldnames.map (fun k => (pyStr ((r.lookup k).getD (Json.str ""))).data))
    some (renderTable (header :: body))

/-- `export_summary_csv` (lines 36-137), from parsed documents to the
summary CSV file content, `none` when no rows were produced (in the
source: a warning is logged and no file is written). -/
def export_summary_csv (docs : List Json) : Option (List Char) :=
  write_csv (summary_rows docs)

/-- `export_deployments_csv` (lines 140-217), from parsed documents to the
deployments CSV file content, `none` when no rows were produced. -/
def export_deployments_csv (docs : List Json) : Option (List Char) :=
  write_csv (deployment_rows docs)

/-- Parse a quoted CSV field body (after its opening quote): a doubled
quote stands for one quote character, a lone closing quote ends the
field. -/
def parseQuoted : List Char → List Char × List Char
  | [] => ([], [])
  | c :: rest =>
    if c = '"' then
      match rest with
      | c2 :: rest2 =>
        if c2 = '"' then
          let p := parseQuoted rest2
          ('"' :: p.1, p.2)
        else ([], rest)
      | [] => ([], [])
    else
      let p := parseQuoted rest
      (c :: p.1, p.2)

/-- Parse an unquoted CSV field: everything up to a comma or line end. -/
def parseUnquoted : List Char → List Char × List Char
  | [] => ([], [])
  | c :: rest =>
    if c = ',' || c = '\r' || c = '\n' then ([], c :: rest)
    else
      let p := parseUnquoted rest
      (c :: p.1, p.2)

/-- Parse one CSV field, quoted or not. -/
def parseField (cs : List Char) : List Char × List Char :=
  if cs.head? = some '"' then parseQuoted cs.tail else parseUnquoted cs

/-- Parse one CSV record: fields separated by commas, ended by a line
terminator or the end of input.  `fuel` bounds the number of fields. -/
def parseRecordAux : Nat → List Char → List (List Char) × List Char
  | 0, cs => ([], cs)
  | fuel + 1, cs =>
    let p := parseField cs
    match p.2 with
    | ',' :: r2 =>
      let q := parseRecordAux fuel r2
      (p.1 :: q.1, q.2)
    | '\r' :: '\n' :: r2 => ([p.1], r2)
    | '\n' :: r2 => ([p.1], r2)
    | '\r' :: r2 => ([p.1], r2)
    | r2 => ([p.1], r2)

/-- Parse a CSV table: one record per line until the input is consumed.
`fuel` bounds the number of records. -/
def parseTableAux : Nat → List Char → List (List (List Char))
  | 0, _ => []
  | fuel + 1, cs =>
    if cs.isEmpty then []
    else
      let p := parseRecordAux (cs.length + 1) cs
      p.1 :: parseTableAux fuel p.2

/-- `csv.reader` over a whole file's characters. -/
def parseTable (cs : List Char) : List (List (List Char)) :=
  parseTableAux (cs.length + 1) cs


theorem Json.getD_of_lookup_some {j : Json} {k : String} {v d : Json}
    (h : j.lookup k = some v) : j.getD k d = v := by
  simp [Json.getD, h]

theorem Json.getD_of_lookup_none {j : Json} {k : String} {d : Json}
    (h : j.lookup k = none) : j.getD k d = d := by
  simp [Json.getD, h]

theorem Json.elems_of_truthy_false {j : Json} (h : j.truthy = false) :
    j.elems = [] := by
  cases j <;> simp_all [Json.truthy, Json.elems]

theorem summary_lookup_nodes_used_avg (data : Json) :
    (summary_row data).lookup "nodes_used_avg"
      = some ((postprocessed_of data).getD "nosed_used_avg" (Json.str "")) := rfl

theorem summary_lookup_nodes_used_median (data : Json) :
    (summary_row data).lookup "nodes_used_median"
      = some ((postprocessed_of data).getD "nosed_used_median" (Json.str "")) := rfl

theorem summary_lookup_nodes_used_max (data : Json) :
    (summary_row data).lookup "nodes_used_max"
      = some ((postprocessed_of data).getD "nosed_used_max" (Json.str "")) := rfl

theorem summary_lookup_nodes_used_min (data : Json) :
    (summary_row data).lookup "nodes_used_min"
      = some ((postprocessed_of data).getD "nosed_used_min" (Json.str "")) := rfl

theorem summary_lookup_node_count (data : Json) :
    (summary_row data).lookup "node_count"
      = some ((summary_cluster_data data).1.getD "node_count" (Json.str "")) := rfl

theorem summary_lookup_eligible_node_count (data : Json) :
    (summary_row data).lookup "eligible_node_count"
      = some ((summary_cluster_data data).1.getD "eligible_node_count" (Json.str "")) := rfl

theorem summary_lookup_deployment_count (data : Json) :
    (summary_row data).lookup "deployment_count"
      = some (if (summary_cluster_data data).2 != 0
              then Json.num (summary_cluster_data data).2 else Json.str "") := rfl

theorem deployment_lookup_measurement_timestamp (data measurement : Json)
    (dkey : String) (ddata : Json) :
    (deployment_row data measurement dkey ddata).lookup "measurement_timestamp"
      = some (measurement.getD "timestamp" (run_timestamp data)) := rfl

/-- C1: a document whose postprocessed statistics block contains the
misspelled keys `nosed_used_avg` / `nosed_used_median` / `nosed_used_max`
/ `nosed_used_min` yields a summary row carrying exactly those values
under the correctly spelled columns `nodes_used_avg` /
`nodes_used_median` / `nodes_used_max` / `nodes_used_min`. -/
theorem nosed_used_keys_feed_nodes_used_columns (data v1 v2 v3 v4 : Json)
    (h1 : (postprocessed_of data).lookup "nosed_used_avg" = some v1)
    (h2 : (postprocessed_of data).lookup "nosed_used_median" = some v2)
    (h3 : (postprocessed_of data).lookup "nosed_used_max" = some v3)
    (h4 : (postprocessed_of data).lookup "nosed_used_min" = some v4) :
    (summary_row data).lookup "nodes_used_avg" = some v1
    ∧ (summary_row data).lookup "nodes_used_median" = some v2
    ∧ (summary_row data).lookup "nodes_used_max" = some v3
    ∧ (summary_row data).lookup "nodes_used_min" = some v4 := by
  exact ⟨by rw [summary_lookup_nodes_used_avg, Json.getD_of_lookup_some h1],
         by rw [summary_lookup_nodes_used_median, Json.getD_of_lookup_some h2],
         by rw [summary_lookup_nodes_used_max, Json.getD_of_lookup_some h3],
         by rw [summary_lookup_nodes_used_min, Json.getD_of_lookup_some h4]⟩

/-- Witness for C1: a concrete document with `nosed_used_avg` = 7 (and
values for the other three misspelled keys) produces a summary row whose
`nodes_used_avg` column is 7. -/
theorem nosed_used_keys_feed_nodes_used_columns_witness :
    (summary_row (Json.obj [("postprocessed", Json.obj
        [("nosed_used_avg", Json.num 7), ("nosed_used_median", Json.num 5),
         ("nosed_used_max", Json.num 9), ("nosed_used_min", Json.num 1)])])).lookup
        "nodes_used_avg" = some (Json.num 7)
    ∧ (summary_row (Json.obj [("postprocessed", Json.obj
        [("nosed_used_avg", Json.num 7), ("nosed_used_median", Json.num 5),
         ("nosed_used_max", Json.num 9), ("nosed_used_min", Json.num 1)])])).lookup
        "nodes_used_median" = some (Json.num 5)
    ∧ (summary_row (Json.obj [("postprocessed", Json.obj
        [("nosed_used_avg", Json.num 7), ("nosed_used_median", Json.num 5),
         ("nosed_used_max", Json.num 9), ("nosed_used_min", Json.num 1)])])).lookup
        "nodes_used_max" = some (Json.num 9)
    ∧ (summary_row (Json.obj [("postprocessed", Json.obj
        [("nosed_used_avg", Json.num 7), ("nosed_used_median", Json.num 5),
         ("nosed_used_max", Json.num 9), ("nosed_used_min", Json.num 1)])])).lookup
        "nodes_used_min" = some (Json.num 1) :=
  nosed_used_keys_feed_nodes_used_columns _ _ _ _ _ rfl rfl rfl rfl

theorem pySplit_ne_nil (sep : Char) (xs : List Char) : pySplit sep xs ≠ [] := by
  cases xs with
  | nil => simp [pySplit]
  | cons c rest => by_cases hc : c = sep <;> simp [pySplit, hc]

theorem pySplit_append_sep {sep : Char} {xs : List Char} (ys : List Char)
    (h : sep ∉ xs) : pySplit sep (xs ++ sep :: ys) = xs :: pySplit sep ys := by
  induction xs with
  | nil => simp [pySplit]
  | cons c rest ih =>
    have hc : c ≠ sep := fun hcs => h (hcs ▸ List.mem_cons_self c rest)
    have hrest : sep ∉ rest := fun hm => h (List.mem_cons_of_mem c hm)
    simp [pySplit, ih hrest, hc]

theorem pySplit_no_sep {sep : Char} {xs : List Char} (h : sep ∉ xs) :
    pySplit sep xs = [xs] := by
  induction xs with
  | nil => simp [pySplit]
  | cons c rest ih =>
    have hc : c ≠ sep := fun hcs => h (hcs ▸ List.mem_cons_self c rest)
    have hrest : sep ∉ rest := fun hm => h (List.mem_cons_of_mem c hm)
    simp [pySplit, ih hrest, hc]

/-- C2: for every ARN of the form `arn:aws:eks:<region>:<acct>:cluster/<name>`
(no colons inside the segments, no slash inside the name),
`parse_cluster_info` returns exactly the pair `(<region>, <name>)`: the
region is the 4th colon segment and the name the last slash segment of
the 6th colon segment. -/
theorem parse_cluster_info_valid_arn (region acct name : String)
    (h1 : ':' ∉ region.data) (h2 : ':' ∉ acct.data)
    (h3 : ':' ∉ name.data) (h4 : '/' ∉ name.data) :
    parse_cluster_info ("arn:aws:eks:" ++ region ++ ":" ++ acct ++ ":cluster/" ++ name)
      = (region, name) := by
  have e1 : ("arn:aws:eks:" : String).data
      = ['a', 'r', 'n', ':', 'a', 'w', 's', ':', 'e', 'k', 's', ':'] := rfl
  have e2 : (":" : String).data = [':'] := rfl
  have e3 : (":cluster/" : String).data
      = [':', 'c', 'l', 'u', 's', 't', 'e', 'r', '/'] := rfl
  have hdata : ("arn:aws:eks:" ++ region ++ ":" ++ acct ++ ":cluster/" ++ name).data
      = ['a', 'r', 'n'] ++ ':' :: (['a', 'w', 's'] ++ ':' :: (['e', 'k', 's'] ++ ':' ::
        (region.data ++ ':' :: (acct.data ++ ':' ::
          (['c', 'l', 'u', 's', 't', 'e', 'r'] ++ '/' :: name.data))))) := by
    simp only [String.data_append, List.append_assoc, e1, e2, e3]
    rfl
  have htail : ':' ∉ ['c', 'l', 'u', 's', 't', 'e', 'r'] ++ '/' :: name.data := by
    simp only [List.mem_append, List.mem_cons]
    push_neg
    exact ⟨by decide, by decide, fun hm => h3 hm⟩
  have hsplit : pySplit ':' ("arn:aws:eks:" ++ region ++ ":" ++ acct ++ ":cluster/" ++ name).data
      = [['a', 'r', 'n'], ['a', 'w', 's'], ['e', 'k', 's'], region.data, acct.data,
         ['c', 'l', 'u', 's', 't', 'e', 'r'] ++ '/' :: name.data] := by
    rw [hdata, pySplit_append_sep _ (by decide), pySplit_append_sep _ (by decide),
      pySplit_append_sep _ (by decide), pySplit_append_sep _ h1,
      pySplit_append_sep _ h2, pySplit_no_sep htail]
  have hpre : ("arn:aws:eks:" : String).data.isPrefixOf
      ("arn:aws:eks:" ++ region ++ ":" ++ acct ++ ":cluster/" ++ name).data = true := by
    rw [List.isPrefixOf_iff_prefix]
    refine ⟨region.data ++ ':' :: (acct.data ++ ':' ::
      (['c', 'l', 'u', 's', 't', 'e', 'r'] ++ '/' :: name.data)), ?_⟩
    rw [hdata, e1]
    rfl
  have hsub : pySplit '/' ('c' :: 'l' :: 'u' :: 's' :: 't' :: 'e' :: 'r' :: '/' :: name.data)
      = [['c', 'l', 'u', 's', 't', 'e', 'r'], name.data] := by
    have e4 : ('c' :: 'l' :: 'u' :: 's' :: 't' :: 'e' :: 'r' :: '/' :: name.data)
        = ['c', 'l', 'u', 's', 't', 'e', 'r'] ++ '/' :: name.data := rfl
    rw [e4, pySplit_append_sep _ (by decide), pySplit_no_sep h4]
  unfold parse_cluster_info
  rw [if_pos hpre]
  simp only [hsplit, List.length_cons, List.getD, List.getElem?_cons_succ,
    List.getElem?_cons_zero, hsub]
  norm_num
  rw [hsub]
  rfl

/-- Witness for C2: the documented example ARN parses to its region and
cluster name. -/
theorem parse_cluster_info_valid_arn_witness :
    ':' ∉ ("us-east-1" : String).data
    ∧ parse_cluster_info ("arn:aws:eks:" ++ "us-east-1" ++ ":" ++ "906324658258"
        ++ ":cluster/" ++ "prod-live-main") = ("us-east-1", "prod-live-main") :=
  ⟨by decide, parse_cluster_info_valid_arn "us-east-1" "906324658258" "prod-live-main"
    (by decide) (by decide) (by decide) (by decide)⟩

/-- C3: an ARN-prefixed string with fewer than 6 colon segments yields an
empty cluster name, and with fewer than 4 also an empty region; the
function is total by construction, so no input can raise. -/
theorem parse_cluster_info_short_arn (s : String)
    (hpre : ("arn:aws:eks:" : String).data.isPrefixOf s.data = true)
    (hlen : (pySplit ':' s.data).length < 6) :
    (parse_cluster_info s).2 = ""
    ∧ ((pySplit ':' s.data).length < 4 → (parse_cluster_info s).1 = "") := by
  unfold parse_cluster_info
  rw [if_pos hpre]
  constructor
  · have h5 : ¬ ((pySplit ':' s.data).length > 5) := by omega
    simp only [if_neg h5]
  · intro h4
    have h3 : ¬ ((pySplit ':' s.data).length > 3) := by omega
    simp only [if_neg h3]

/-- Witness for C3: a short ARN with only a region degrades to an empty
cluster name without failing. -/
theorem parse_cluster_info_short_arn_witness :
    (pySplit ':' ("arn:aws:eks:us-east-1" : String).data).length < 6
    ∧ ((parse_cluster_info "arn:aws:eks:us-east-1").2 = ""
       ∧ ((pySplit ':' ("arn:aws:eks:us-east-1" : String).data).length < 4 →
           (parse_cluster_info "arn:aws:eks:us-east-1").1 = "")) :=
  ⟨by decide, parse_cluster_info_short_arn "arn:aws:eks:us-east-1" (by decide) (by decide)⟩

/-- C4: when both `measurements` and `measurements_taken` are present and
non-empty, the deployment rows of the document are built from the
`measurements` entries alone: their count is the sum of the sizes of the
`deployments` mappings across the `measurements` entries. -/
theorem measurements_precedence_in_deployment_rows (data : Json) (ms mt : List Json)
    (hms : data.getD "measurements" (Json.arr []) = Json.arr ms) (hms0 : ms ≠ [])
    (hmt : data.getD "measurements_taken" (Json.arr []) = Json.arr mt) (hmt0 : mt ≠ []) :
    (deployment_rows_for data).length
      = (ms.map (fun m => (m.getD "deployments" (Json.obj [])).items.length)).sum := by
  have htr : (Json.arr ms).truthy = true := by simp [Json.truthy, hms0]
  have hsrc : measurements_source data = Json.arr ms := by
    simp [measurements_source, pyOr, hms, htr]
  unfold deployment_rows_for measurements_of
  rw [hsrc]
  simp only [Json.elems, List.length_flatMap, Function.comp_def, List.length_map]

/-- Witness for C4: a document with two `measurements` entries (1 and 2
deployments) and a `measurements_taken` entry with 5 deployments yields
1 + 2 = 3 deployment rows, not 5. -/
theorem measurements_precedence_in_deployment_rows_witness :
    (deployment_rows_for (Json.obj
      [("measurements", Json.arr
         [Json.obj [("deployments", Json.obj [("a", Json.obj [])])],
          Json.obj [("deployments", Json.obj [("b", Json.obj []), ("c", Json.obj [])])]]),
       ("measurements_taken", Json.arr
         [Json.obj [("deployments", Json.obj
            [("p", Json.obj []), ("q", Json.obj []), ("r", Json.obj []),
             ("s", Json.obj []), ("t", Json.obj [])])]])])).length
      = ([Json.obj [("deployments", Json.obj [("a", Json.obj [])])],
          Json.obj [("deployments", Json.obj [("b", Json.obj []), ("c", Json.obj [])])]].map
          (fun m => (m.getD "deployments" (Json.obj [])).items.length)).sum :=
  measurements_precedence_in_deployment_rows _ _ _ rfl (by simp) rfl (by simp)

/-- C6: the deployments export emits exactly one row per
(document, measurement, deployment) triple: its total row count is the
sum, over all documents and over every measurement in each document's
measurements collection, of the size of that measurement's `deployments`
mapping. -/
theorem one_deployment_row_per_triple (docs : List Json) :
    (deployment_rows docs).length
      = (docs.map (fun d => ((measurements_of d).map
          (fun m => (m.getD "deployments" (Json.obj [])).items.length)).sum)).sum := by
  unfold deployment_rows deployment_rows_for
  simp only [List.length_flatMap, Function.comp_def, List.length_map]

/-- C7: every generated deployment row's `measurement_timestamp` equals
the measurement's own `timestamp` value when the measurement carries that
key, and the run-level timestamp (`timestamp` field, else `start_time`,
else empty) when it does not. -/
theorem measurement_timestamp_default (data : Json) (row : List (String × Json))
    (hrow : row ∈ deployment_rows_for data) :
    ∃ m ∈ measurements_of data,
      ((∃ v, m.lookup "timestamp" = some v
          ∧ row.lookup "measurement_timestamp" = some v)
       ∨ (m.lookup "timestamp" = none
          ∧ row.lookup "measurement_timestamp" = some (run_timestamp data))) := by
  unfold deployment_rows_for at hrow
  rw [List.mem_flatMap] at hrow
  obtain ⟨m, hm, hrow⟩ := hrow
  rw [List.mem_map] at hrow
  obtain ⟨kv, hkv, rfl⟩ := hrow
  refine ⟨m, hm, ?_⟩
  cases h : m.lookup "timestamp" with
  | some v =>
    exact Or.inl ⟨v, rfl, by
      rw [deployment_lookup_measurement_timestamp, Json.getD_of_lookup_some h]⟩
  | none =>
    exact Or.inr ⟨rfl, by
      rw [deployment_lookup_measurement_timestamp, Json.getD_of_lookup_none h]⟩

/-- Witness for C7: in a document whose single measurement has no own
timestamp, the produced row's `measurement_timestamp` is the run-level
timestamp. -/
theorem measurement_timestamp_default_witness :
    ∃ m ∈ measurements_of (Json.obj
      [("timestamp", Json.str "T0"),
       ("measurements", Json.arr
         [Json.obj [("deployments", Json.obj [("d1", Json.obj [])])]])]),
      ((∃ v, m.lookup "timestamp" = some v
          ∧ (deployment_row (Json.obj
              [("timestamp", Json.str "T0"),
               ("measurements", Json.arr
                 [Json.obj [("deployments", Json.obj [("d1", Json.obj [])])]])])
              (Json.obj [("deployments", Json.obj [("d1", Json.obj [])])])
              "d1" (Json.obj [])).lookup "measurement_timestamp" = some v)
       ∨ (m.lookup "timestamp" = none
          ∧ (deployment_row (Json.obj
              [("timestamp", Json.str "T0"),
               ("measurements", Json.arr
                 [Json.obj [("deployments", Json.obj [("d1", Json.obj [])])]])])
              (Json.obj [("deployments", Json.obj [("d1", Json.obj [])])])
              "d1" (Json.obj [])).lookup "measurement_timestamp"
              = some (run_timestamp (Json.obj
                  [("timestamp", Json.str "T0"),
                   ("measurements", Json.arr
                     [Json.obj [("deployments", Json.obj [("d1", Json.obj [])])]])])))) :=
  measurement_timestamp_default _ _ (List.mem_cons_self _ _)

theorem Json.truthy_null : Json.null.truthy = false := rfl

theorem Json.truthy_obj_nil : (Json.obj []).truthy = false := rfl

theorem Json.getD_obj_nil (k : String) (d : Json) : (Json.obj []).getD k d = d := rfl

/-- C10: a legacy document with a `measurements_pre` object but no
non-empty `measurements` or `measurements_taken` collection and no
`measurements_post` key produces zero deployment rows, while the summary
export still draws its cluster fields from `measurements_pre`'s cluster
block. -/
theorem pre_only_document_has_no_deployment_rows (data : Json) (pkvs : List (String × Json))
    (h1 : (data.getD "measurements" (Json.arr [])).truthy = false)
    (h2 : (data.getD "measurements_taken" (Json.arr [])).truthy = false)
    (h3 : data.lookup "measurements_post" = none)
    (h4 : data.lookup "measurements_pre" = some (Json.obj pkvs)) :
    deployment_rows_for data = []
    ∧ (summary_row data).lookup "node_count"
        = some (((Json.obj pkvs).getD "cluster" (Json.obj [])).getD "node_count" (Json.str "")) := by
  have hsrc : measurements_source data = data.getD "measurements_taken" (Json.arr []) := by
    simp [measurements_source, pyOr, h1, h2, Json.getD_of_lookup_none h3, Json.truthy_null]
  constructor
  · unfold deployment_rows_for measurements_of
    rw [hsrc, Json.elems_of_truthy_false h2]
    rfl
  · have hcd : (summary_cluster_data data).1
        = (Json.obj pkvs).getD "cluster" (Json.obj []) := by
      simp [summary_cluster_data, pyOr, h1, h2, Json.getD_of_lookup_none h3,
        Json.getD_of_lookup_some h4, Json.getD_obj_nil, Json.truthy_obj_nil]
    rw [summary_lookup_node_count, hcd]

/-- Witness for C10: a concrete document holding only `measurements_pre`
yields no deployment rows, yet its summary `node_count` comes from the
pre-measurement's cluster block. -/
theorem pre_only_document_has_no_deployment_rows_witness :
    deployment_rows_for (Json.obj
      [("measurements_pre", Json.obj
         [("cluster", Json.obj [("node_count", Json.num 11)]),
          ("deployments", Json.obj [("d1", Json.obj [])])])]) = []
    ∧ (summary_row (Json.obj
        [("measurements_pre", Json.obj
           [("cluster", Json.obj [("node_count", Json.num 11)]),
            ("deployments", Json.obj [("d1", Json.obj [])])])])).lookup "node_count"
        = some (Json.num 11) :=
  pre_only_document_has_no_deployment_rows
    (Json.obj
      [("measurements_pre", Json.obj
         [("cluster", Json.obj [("node_count", Json.num 11)]),
          ("deployments", Json.obj [("d1", Json.obj [])])])])
    [("cluster", Json.obj [("node_count", Json.num 11)]),
     ("deployments", Json.obj [("d1", Json.obj [])])]
    rfl rfl rfl rfl

/-- C5: with no non-empty measurements collection, the summary row's
cluster fields come from `measurements_post`'s cluster block, falling
back to `measurements_pre`'s when post's is absent or empty;
`deployment_count` is the size of `measurements_post`'s deployments
mapping, and a size of 0 serializes as the empty string, never `0`. -/
theorem legacy_summary_cluster_fields (data : Json)
    (h1 : (data.getD "measurements" (Json.arr [])).truthy = false)
    (h2 : (data.getD "measurements_taken" (Json.arr [])).truthy = false) :
    (((data.getD "measurements_post" (Json.obj [])).getD "cluster" (Json.obj [])).truthy = true →
      (summary_row data).lookup "node_count"
        = some (((data.getD "measurements_post" (Json.obj [])).getD "cluster" (Json.obj [])).getD
            "node_count" (Json.str ""))
      ∧ (summary_row data).lookup "eligible_node_count"
        = some (((data.getD "measurements_post" (Json.obj [])).getD "cluster" (Json.obj [])).getD
            "eligible_node_count" (Json.str "")))
    ∧ (((data.getD "measurements_post" (Json.obj [])).getD "cluster" (Json.obj [])).truthy = false →
      (summary_row data).lookup "node_count"
        = some (((data.getD "measurements_pre" (Json.obj [])).getD "cluster" (Json.obj [])).getD
            "node_count" (Json.str ""))
      ∧ (summary_row data).lookup "eligible_node_count"
        = some (((data.getD "measurements_pre" (Json.obj [])).getD "cluster" (Json.obj [])).getD
            "eligible_node_count" (Json.str "")))
    ∧ (summary_row data).lookup "deployment_count"
      = some (if ((data.getD "measurements_post" (Json.obj [])).getD "deployments" (Json.obj [])).pyLen != 0
              then Json.num (((data.getD "measurements_post" (Json.obj [])).getD "deployments" (Json.obj [])).pyLen)
              else Json.str "")
    ∧ (((data.getD "measurements_post" (Json.obj [])).getD "deployments" (Json.obj [])).pyLen = 0 →
      pyStr (((summary_row data).lookup "deployment_count").getD (Json.str "")) = ""
      ∧ pyStr (((summary_row data).lookup "deployment_count").getD (Json.str "")) ≠ "0") := by
  have hcd : summary_cluster_data data
      = (pyOr ((data.getD "measurements_post" (Json.obj [])).getD "cluster" (Json.obj []))
              ((data.getD "measurements_pre" (Json.obj [])).getD "cluster" (Json.obj [])),
         ((data.getD "measurements_post" (Json.obj [])).getD "deployments" (Json.obj [])).pyLen) := by
    simp [summary_cluster_data, pyOr, h1, h2]
  refine ⟨?_, ?_, ?_, ?_⟩
  · intro ht
    constructor
    · rw [summary_lookup_node_count, hcd]
      simp [pyOr, ht]
    · rw [summary_lookup_eligible_node_count, hcd]
      simp [pyOr, ht]
  · intro hf
    constructor
    · rw [summary_lookup_node_count, hcd]
      simp [pyOr, hf]
    · rw [summary_lookup_eligible_node_count, hcd]
      simp [pyOr, hf]
  · rw [summary_lookup_deployment_count, hcd]
  · intro hz
    rw [summary_lookup_deployment_count, hcd]
    simp [hz, pyStr]

/-- Witness for C5: a document with only a `measurements_post` block
(cluster sizes 4 and 3, empty deployments mapping) yields summary cluster
fields 4 and 3 and a `deployment_count` cell that serializes as the empty
string. -/
theorem legacy_summary_cluster_fields_witness :
    ((summary_row (Json.obj
        [("measurements_post", Json.obj
           [("cluster", Json.obj [("node_count", Json.num 4), ("eligible_node_count", Json.num 3)]),
            ("deployments", Json.obj [])])])).lookup "node_count" = some (Json.num 4)
     ∧ (summary_row (Json.obj
        [("measurements_post", Json.obj
           [("cluster", Json.obj [("node_count", Json.num 4), ("eligible_node_count", Json.num 3)]),
            ("deployments", Json.obj [])])])).lookup "eligible_node_count" = some (Json.num 3))
    ∧ (pyStr (((summary_row (Json.obj
        [("measurements_post", Json.obj
           [("cluster", Json.obj [("node_count", Json.num 4), ("eligible_node_count", Json.num 3)]),
            ("deployments", Json.obj [])])])).lookup "deployment_count").getD (Json.str "")) = ""
       ∧ pyStr (((summary_row (Json.obj
        [("measurements_post", Json.obj
           [("cluster", Json.obj [("node_count", Json.num 4), ("eligible_node_count", Json.num 3)]),
            ("deployments", Json.obj [])])])).lookup "deployment_count").getD (Json.str "")) ≠ "0") :=
  ⟨(legacy_summary_cluster_fields (Json.obj
      [("measurements_post", Json.obj
         [("cluster", Json.obj [("node_count", Json.num 4), ("eligible_node_count", Json.num 3)]),
          ("deployments", Json.obj [])])]) rfl rfl).1 rfl,
   (legacy_summary_cluster_fields (Json.obj
      [("measurements_post", Json.obj
         [("cluster", Json.obj [("node_count", Json.num 4), ("eligible_node_count", Json.num 3)]),
          ("deployments", Json.obj [])])]) rfl rfl).2.2.2 rfl⟩

theorem parseUnquoted_append (f r : List Char) (hf : needsQuote f = false)
    (hr : r = [] ∨ r.head? = some ',' ∨ r.head? = some '\r' ∨ r.head? = some '\n') :
    parseUnquoted (f ++ r) = (f, r) := by
  induction f with
  | nil =>
    rcases hr with h | h | h | h
    · subst h; rfl
    all_goals
      cases r with
      | nil => simp at h
      | cons c cs =>
        simp only [List.head?_cons, Option.some.injEq] at h
        subst h
        simp [parseUnquoted]
  | cons c f' ih =>
    simp only [needsQuote, List.any_cons, Bool.or_eq_false_iff] at hf
    obtain ⟨hc, hf'⟩ := hf
    simp only [Bool.or_eq_false_iff, decide_eq_false_iff_not] at hc
    simp only [List.cons_append, parseUnquoted]
    have : ¬(c = ',' || c = '\r' || c = '\n') = true := by
      simp only [Bool.or_eq_true, decide_eq_true_eq]
      tauto
    rw [if_neg this, show (f'.append r) = f' ++ r from rfl, ih hf']

theorem parseQuoted_escape (f r : List Char) (hr : r.head? ≠ some '"') :
    parseQuoted (escapeQuotes f ++ '"' :: r) = (f, r) := by
  induction f with
  | nil =>
    cases r with
    | nil => rfl
    | cons c cs =>
      have hc : ¬(c = '"') := fun h => hr (by simp [h])
      simp [escapeQuotes, parseQuoted, hc]
  | cons c f' ih =>
    by_cases hc : c = '"'
    · subst hc
      have he : escapeQuotes ('"' :: f') = '"' :: '"' :: escapeQuotes f' := by
        simp [escapeQuotes]
      rw [he, List.cons_append, List.cons_append]
      simp only [parseQuoted, if_pos rfl]
      rw [ih]
      simp
    · have he : escapeQuotes (c :: f') = c :: escapeQuotes f' := by
        simp [escapeQuotes, hc]
      rw [he, List.cons_append, parseQuoted.eq_def]
      simp only [if_neg hc]
      rw [ih]

theorem parseField_render (f r : List Char)
    (hr : r = [] ∨ r.head? = some ',' ∨ r.head? = some '\r' ∨ r.head? = some '\n') :
    parseField (renderField f ++ r) = (f, r) := by
  have hr' : r.head? ≠ some '"' := by
    rcases hr with h | h | h | h <;> simp [h]
  by_cases hq : needsQuote f = true
  · have hrf : renderField f = '"' :: (escapeQuotes f ++ ['"']) := by
      simp [renderField, hq]
    rw [hrf, List.cons_append]
    simp only [parseField, List.head?_cons, List.tail_cons, if_pos rfl]
    rw [List.append_assoc]
    exact parseQuoted_escape f r hr'
  · have hq' : needsQuote f = false := by simpa using hq
    have hrf : renderField f = f := by simp [renderField, hq']
    rw [hrf]
    have hhead : ¬ ((f ++ r).head? = some '"') := by
      cases f with
      | nil => simpa using hr'
      | cons c f' =>
        simp only [needsQuote, List.any_cons, Bool.or_eq_false_iff,
          decide_eq_false_iff_not] at hq'
        simp only [List.cons_append, List.head?_cons, Option.some.injEq]
        exact hq'.1.1.1.2
    simp only [parseField, if_neg hhead]
    exact parseUnquoted_append f r hq' hr

theorem renderRecord_length (fields : List (List Char)) :
    fields.length ≤ (renderRecord fields).length + 1 := by
  induction fields with
  | nil => simp
  | cons f fields' ih =>
    cases fields' with
    | nil => simp [renderRecord]
    | cons f2 fields'' =>
      simp only [renderRecord, List.length_append, List.length_cons] at ih ⊢
      omega

theorem parseRecordAux_render (fields : List (List Char)) (rest : List Char) (fuel : Nat)
    (hne : fields ≠ []) (hfuel : fields.length ≤ fuel) :
    parseRecordAux fuel (renderRecord fields ++ '\r' :: '\n' :: rest) = (fields, rest) := by
  induction fields generalizing fuel with
  | nil => exact absurd rfl hne
  | cons f fields' ih =>
    have hf1 : 1 ≤ fuel := by
      simp only [List.length_cons] at hfuel
      omega
    obtain ⟨fuel', rfl⟩ : ∃ fuel', fuel = fuel' + 1 := ⟨fuel - 1, by omega⟩
    cases fields' with
    | nil =>
      simp only [renderRecord, parseRecordAux]
      rw [parseField_render f ('\r' :: '\n' :: rest) (by simp)]
      rfl
    | cons f2 fields'' =>
      simp only [renderRecord, List.append_assoc, List.cons_append, parseRecordAux]
      rw [parseField_render f (',' :: (renderRecord (f2 :: fields'') ++ '\r' :: '\n' :: rest))
        (by simp)]
      have hih := ih fuel' (by simp) (by simp only [List.length_cons] at hfuel ⊢; omega)
      simp [hih]

theorem renderTable_length (records : List (List (List Char))) :
    records.length ≤ (renderTable records).length := by
  induction records with
  | nil => simp [renderTable]
  | cons rec records' ih =>
    simp only [renderTable, List.map_cons, List.flatten_cons, List.length_append,
      List.length_cons, crlf] at ih ⊢
    omega

theorem parseTableAux_render (records : List (List (List Char))) (fuel : Nat)
    (hne : ∀ rec ∈ records, rec ≠ []) (hfuel : records.length ≤ fuel) :
    parseTableAux fuel (renderTable records) = records := by
  induction records generalizing fuel with
  | nil =>
    cases fuel <;> simp [renderTable, parseTableAux]
  | cons rec records' ih =>
    have hf1 : 1 ≤ fuel := by
      simp only [List.length_cons] at hfuel
      omega
    obtain ⟨fuel', rfl⟩ : ∃ fuel', fuel = fuel' + 1 := ⟨fuel - 1, by omega⟩
    have hshape : renderTable (rec :: records')
        = renderRecord rec ++ '\r' :: '\n' :: renderTable records' := by
      simp [renderTable, crlf]
    have hrec : rec ≠ [] := hne rec (List.mem_cons_self rec records')
    have hempty : (renderRecord rec ++ '\r' :: '\n' :: renderTable records').isEmpty = false := by
      cases h : renderRecord rec with
      | nil => simp [h]
      | cons a as => simp [h]
    have hlen : rec.length
        ≤ (renderRecord rec ++ '\r' :: '\n' :: renderTable records').length + 1 := by
      have h1 := renderRecord_length rec
      simp only [List.length_append, List.length_cons]
      omega
    rw [hshape]
    simp only [parseTableAux, hempty, Bool.false_eq_true, if_false]
    rw [parseRecordAux_render rec (renderTable records') _ hrec hlen]
    simp only [List.length_cons] at hfuel
    rw [ih fuel' (fun r hr => hne r (List.mem_cons_of_mem rec hr)) (by omega)]

theorem parseTable_renderTable (records : List (List (List Char)))
    (hne : ∀ rec ∈ records, rec ≠ []) :
    parseTable (renderTable records) = records := by
  unfold parseTable
  exact parseTableAux_render records _ hne
    (le_trans (renderTable_length records) (Nat.le_succ _))

theorem map_lookup_cells (g : Json → List Char) (r : List (String × Json))
    (hnd : (r.map Prod.fst).Nodup) :
    (r.map Prod.fst).map (fun k => g ((r.lookup k).getD (Json.str "")))
      = r.map (fun kv => g kv.2) := by
  induction r with
  | nil => rfl
  | cons kv r' ih =>
    simp only [List.map_cons, List.nodup_cons] at hnd ⊢
    obtain ⟨hmem, hnd'⟩ := hnd
    congr 1
    · simp [List.lookup]
    · have hstep : ∀ k ∈ r'.map Prod.fst,
          g ((List.lookup k (kv :: r')).getD (Json.str ""))
            = g ((List.lookup k r').getD (Json.str "")) := by
        intro k hk
        rcases kv with ⟨k1, v1⟩
        have hne : (k == k1) = false := by
          simp only [beq_eq_false_iff_ne, ne_eq]
          exact fun h => hmem (h ▸ hk)
        simp [List.lookup, hne]
      rw [List.map_eq_map_iff.mpr hstep, ih hnd']

/-- C8: a table whose processed files yield zero rows writes no file at
all (`none`, the warning path in the source), independently per table;
a non-empty row list writes a file made of a header line from the first
row's keys followed by one line per row. -/
theorem empty_row_set_writes_no_file (docs : List Json) :
    (summary_rows docs = [] → export_summary_csv docs = none)
    ∧ (∀ r0 rest, summary_rows docs = r0 :: rest →
        export_summary_csv docs
          = some (renderTable ((r0.map Prod.fst).map String.data ::
              (summary_rows docs).map (fun r => (r0.map Prod.fst).map
                (fun k => (pyStr ((r.lookup k).getD (Json.str ""))).data)))))
    ∧ (deployment_rows docs = [] → export_deployments_csv docs = none)
    ∧ (∀ r0 rest, deployment_rows docs = r0 :: rest →
        export_deployments_csv docs
          = some (renderTable ((r0.map Prod.fst).map String.data ::
              (deployment_rows docs).map (fun r => (r0.map Prod.fst).map
                (fun k => (pyStr ((r.lookup k).getD (Json.str ""))).data))))) := by
  refine ⟨?_, ?_, ?_, ?_⟩
  · intro h
    unfold export_summary_csv write_csv
    rw [h]
  · intro r0 rest h
    unfold export_summary_csv write_csv
    rw [h]
  · intro h
    unfold export_deployments_csv write_csv
    rw [h]
  · intro r0 rest h
    unfold export_deployments_csv write_csv
    rw [h]

/-- Witness for C8: one empty document yields a summary file but no
deployments file; the summary table is produced even though the
deployments table is not. -/
theorem empty_row_set_writes_no_file_witness :
    export_deployments_csv [Json.obj []] = none
    ∧ export_summary_csv [Json.obj []]
        = some (renderTable (((summary_row (Json.obj [])).map Prod.fst).map String.data ::
            (summary_rows [Json.obj []]).map (fun r => ((summary_row (Json.obj [])).map Prod.fst).map
              (fun k => (pyStr ((r.lookup k).getD (Json.str ""))).data)))) :=
  ⟨(empty_row_set_writes_no_file [Json.obj []]).2.2.1 rfl,
   (empty_row_set_writes_no_file [Json.obj []]).2.1 (summary_row (Json.obj [])) [] rfl⟩

/-- C9: writing a non-empty deployment-row set and re-reading the CSV
recovers exactly the header and, for every row, the tuple of all its cell
values as their `str()` representation — numeric cells included, with no
type-coercion loss. -/
theorem deployments_csv_round_trip (rows : List (List (String × Json)))
    (hne : rows ≠ [])
    (hkeys : ∀ r ∈ rows, r.map Prod.fst = deployment_fieldnames) :
    parseTable ((write_csv rows).getD [])
      = deployment_fieldnames.map String.data
        :: rows.map (fun r => r.map (fun kv => (pyStr kv.2).data)) := by
  obtain ⟨r0, rest, rfl⟩ : ∃ r0 rest, rows = r0 :: rest := by
    cases rows with
    | nil => exact absurd rfl hne
    | cons a b => exact ⟨a, b, rfl⟩
  have hk0 : r0.map Prod.fst = deployment_fieldnames := hkeys r0 (List.mem_cons_self r0 rest)
  have hw : write_csv (r0 :: rest)
      = some (renderTable (((r0.map Prod.fst).map String.data) ::
          (r0 :: rest).map (fun r => (r0.map Prod.fst).map
            (fun k => (pyStr ((r.lookup k).getD (Json.str ""))).data)))) := rfl
  rw [hw, Option.getD_some, hk0]
  have hrecs : ∀ rec ∈ (deployment_fieldnames.map String.data ::
      (r0 :: rest).map (fun r => deployment_fieldnames.map
        (fun k => (pyStr ((r.lookup k).getD (Json.str ""))).data))), rec ≠ [] := by
    intro rec hrec
    rcases List.mem_cons.mp hrec with h | h
    · subst h
      simp [deployment_fieldnames]
    · obtain ⟨r, _, rfl⟩ := List.mem_map.mp h
      simp [deployment_fieldnames]
  rw [parseTable_renderTable _ hrecs]
  congr 1
  apply List.map_eq_map_iff.mpr
  intro r hr
  rw [← hkeys r hr]
  exact map_lookup_cells (fun v => (pyStr v).data) r
    (by rw [hkeys r hr]; decide)

/-- Witness for C9: one concrete row (with a comma-bearing cluster name
and several numeric cells) writes and re-reads to exactly its header and
string tuple. -/
theorem deployments_csv_round_trip_witness :
    parseTable ((write_csv [[("region", Json.str "us-east-1"), ("cluster", Json.str "c,1"),
        ("namespace", Json.str "ns"), ("timestamp", Json.str "t0"),
        ("measurement_timestamp", Json.str "t1"), ("scenario", Json.str "s"),
        ("action", Json.str "a"), ("deployment_name", Json.str "web"),
        ("total_pods", Json.num 12), ("nodes_used", Json.num 3),
        ("max_pods", Json.num 5), ("min_pods", Json.num 1),
        ("node_skew", Json.num 4), ("node_skew_percentage", Json.num 80),
        ("mean_pods", Json.num 4), ("median_pods", Json.num 4),
        ("coefficient_of_variation", Json.num 0), ("gini_coefficient", Json.num 0),
        ("jain_fairness_index", Json.num 1)]]).getD [])
      = deployment_fieldnames.map String.data
        :: [[("region", Json.str "us-east-1"), ("cluster", Json.str "c,1"),
        ("namespace", Json.str "ns"), ("timestamp", Json.str "t0"),
        ("measurement_timestamp", Json.str "t1"), ("scenario", Json.str "s"),
        ("action", Json.str "a"), ("deployment_name", Json.str "web"),
        ("total_pods", Json.num 12), ("nodes_used", Json.num 3),
        ("max_pods", Json.num 5), ("min_pods", Json.num 1),
        ("node_skew", Json.num 4), ("node_skew_percentage", Json.num 80),
        ("mean_pods", Json.num 4), ("median_pods", Json.num 4),
        ("coefficient_of_variation", Json.num 0), ("gini_coefficient", Json.num 0),
        ("jain_fairness_index", Json.num 1)]].map (fun r => r.map (fun kv => (pyStr kv.2).data)) :=
  deployments_csv_round_trip _ (by simp) (by decide)
